import Mathlib

/-!
# Mesoscale / Radiosonde — verification of the data-extraction and
# change-detection engine

Shallow embedding of the weather-monitoring system's core logic:

* JavaScript-style primitives (truthy `||` fallbacks, `parseFloat`,
  `parseInt`, `String.prototype.includes`, `toLowerCase`) used by the
  TypeScript source;
* the alert classifier (`fetchAlerts` mapping in `weather/nws.ts`);
* the drone-hour suitability rating chain (`analyzeDroneCondition`);
* the best-flying-window scan (`fetchDroneForecast`);
* the tabular observation parser's numeric cells (`fetchAirportObservation`);
* the AFD / HWO text-section extractors (`fetchAFD`, `fetchHWO`);
* snapshot state and change detection (`lib/state.ts`);
* the fetch-and-decide cycle decision structure of the two entry points.

JavaScript numbers are modelled as `ℚ` (all the arithmetic involved is
exact decimal arithmetic, no rounding-mode behaviour is exercised).
-/

namespace Mesoscale

/-! ## JavaScript-style primitives -/

/-- Whitespace characters matched by the JavaScript `\s` class (ASCII part)
and trimmed by `String.prototype.trim`. -/
def isWsChar (c : Char) : Bool :=
  c = ' ' || c = '\t' || c = '\n' || c = '\r' || c = '\x0b' || c = '\x0c'

/-- Word characters matched by the JavaScript `\w` class. -/
def isWordChar (c : Char) : Bool :=
  c.isAlpha || c.isDigit || c = '_'

/-- Does `p` occur at the head of `s`? (helper for substring search). -/
def startsWithL : List Char → List Char → Bool
  | [], _ => true
  | _ :: _, [] => false
  | p :: ps, c :: cs => p = c && startsWithL ps cs

/-- Substring search over character lists (helper for `jsIncludes`). -/
def containsAux : List Char → List Char → Bool
  | s, pat =>
    startsWithL pat s ||
      (match s with
       | [] => false
       | _ :: rest => containsAux rest pat)

/-- JavaScript `s.includes(pat)`: substring containment. -/
def jsIncludes (s pat : String) : Bool :=
  containsAux s.data pat.data

/-- JavaScript `s.toLowerCase()` (ASCII case mapping suffices for the
keywords the source tests). -/
def jsLower (s : String) : String :=
  ⟨s.data.map Char.toLower⟩

/-- Numeric value of a list of decimal digit characters. -/
def digitsVal (l : List Char) : ℕ :=
  l.foldl (fun a c => a * 10 + (c.toNat - 48)) 0

/-- JavaScript `parseFloat`: skip leading whitespace, optional sign, then
the longest prefix of the form `digits[.digits]`; `NaN` (modelled as
`none`) when no digit is found.  (Exponent notation never occurs in the
observation-table cells this is applied to and is not modelled.) -/
def jsParseFloat (s : String) : Option ℚ :=
  let l := s.data.dropWhile isWsChar
  let sign : ℚ := match l with
    | '-' :: _ => -1
    | _ => 1
  let l := match l with
    | '-' :: r => r
    | '+' :: r => r
    | _ => l
  let intPart := l.takeWhile Char.isDigit
  let rest := l.dropWhile Char.isDigit
  let fracPart := match rest with
    | '.' :: r => r.takeWhile Char.isDigit
    | _ => []
  if intPart = [] ∧ fracPart = [] then none
  else some (sign * ((digitsVal intPart : ℚ) +
    (digitsVal fracPart : ℚ) / (10 : ℚ) ^ fracPart.length))

/-- JavaScript `parseInt(s, 10)`: skip leading whitespace, optional sign,
longest digit prefix; `NaN` (`none`) when no digit is found. -/
def jsParseInt (s : String) : Option ℤ :=
  let l := s.data.dropWhile isWsChar
  let sign : ℤ := match l with
    | '-' :: _ => -1
    | _ => 1
  let l := match l with
    | '-' :: r => r
    | '+' :: r => r
    | _ => l
  let intPart := l.takeWhile Char.isDigit
  if intPart = [] then none
  else some (sign * (digitsVal intPart : ℤ))

/-- JavaScript truthy fallback `x || d` for an optional number
(`0` is falsy, so a present zero falls through to the default). -/
def numOr (x : Option ℚ) (d : ℚ) : ℚ :=
  match x with
  | some v => if v = 0 then d else v
  | none => d

/-- JavaScript truthy fallback `x || d` for an optional string
(the empty string is falsy). -/
def strOr (x : Option String) (d : String) : String :=
  match x with
  | some v => if v = "" then d else v
  | none => d

/-- JavaScript truthy fallback `x || false` for an optional boolean. -/
def boolOrFalse (x : Option Bool) : Bool :=
  match x with
  | some b => b
  | none => false

/-! ## Alert classifier (`fetchAlerts` in `weather/nws.ts`) -/

/-- Normalized alert severity tier. -/
inductive Severity
  | low
  | moderate
  | high
deriving DecidableEq, Repr

/-- Icon tags assigned by the alert classifier.  The source stores emoji
strings; we name them (`warn` = the default warning sign, `siren` = the
Extreme-severity siren). -/
inductive AlertIcon
  | warn
  | siren
  | flood
  | wind
  | snow
  | ice
  | thunder
  | tornado
deriving DecidableEq, Repr

/-- The event-keyword icon overrides of `fetchAlerts`, in source order:
each `if` unconditionally overwrites the previously assigned icon. -/
def iconCascade (bFlood bWind bSnow bIce bThunder bTornado : Bool)
    (base : AlertIcon) : AlertIcon :=
  let i1 := if bFlood then AlertIcon.flood else base
  let i2 := if bWind then AlertIcon.wind else i1
  let i3 := if bSnow then AlertIcon.snow else i2
  let i4 := if bIce then AlertIcon.ice else i3
  let i5 := if bThunder then AlertIcon.thunder else i4
  if bTornado then AlertIcon.tornado else i5

/-- Spec-side reading of the same overrides: the last matching keyword
rule in evaluation order wins. -/
def iconLastMatch (bFlood bWind bSnow bIce bThunder bTornado : Bool)
    (base : AlertIcon) : AlertIcon :=
  if bTornado then AlertIcon.tornado
  else if bThunder then AlertIcon.thunder
  else if bIce then AlertIcon.ice
  else if bSnow then AlertIcon.snow
  else if bWind then AlertIcon.wind
  else if bFlood then AlertIcon.flood
  else base

/-- The per-alert classification in `fetchAlerts`: severity tier from the
`severity` field, icon first from severity (`🚨` for Extreme, the default
`⚠️` otherwise — the Moderate branch does not touch the icon), then
overridden by keyword checks on the `event` label in source order (flood,
wind, snow, ice/freeze, thunder, tornado). -/
def classifyAlert (severityStr event : String) : Severity × AlertIcon :=
  let severity :=
    if severityStr = "Extreme" ∨ severityStr = "Severe" then Severity.high
    else if severityStr = "Moderate" then Severity.moderate
    else Severity.low
  let icon0 :=
    if severityStr = "Extreme" ∨ severityStr = "Severe" then
      (if severityStr = "Extreme" then AlertIcon.siren else AlertIcon.warn)
    else AlertIcon.warn
  (severity,
    iconCascade (jsIncludes event "Flood") (jsIncludes event "Wind")
      (jsIncludes event "Snow")
      (jsIncludes event "Ice" || jsIncludes event "Freez")
      (jsIncludes event "Thunder") (jsIncludes event "Tornado") icon0)

/-- Spec-side severity mapping: `"Extreme"`/`"Severe"` → high,
`"Moderate"` → moderate, anything else → low. -/
def specAlertTier (severityStr : String) : Severity :=
  if severityStr = "Extreme" then Severity.high
  else if severityStr = "Severe" then Severity.high
  else if severityStr = "Moderate" then Severity.moderate
  else Severity.low

/-- Spec-side icon: the LAST matching keyword rule in the order flood,
wind, snow, ice/freeze, thunder, tornado wins; with no keyword match the
icon comes from the severity tier (siren for Extreme, the default warning
sign otherwise). -/
def specAlertIcon (severityStr event : String) : AlertIcon :=
  iconLastMatch (jsIncludes event "Flood") (jsIncludes event "Wind")
    (jsIncludes event "Snow")
    (jsIncludes event "Ice" || jsIncludes event "Freez")
    (jsIncludes event "Thunder") (jsIncludes event "Tornado")
    (if severityStr = "Extreme" then AlertIcon.siren else AlertIcon.warn)

/-! ## Drone suitability rating chain (`analyzeDroneCondition`) -/

/-- The 4-tier operational suitability rating.  The source spells the
lowest tier `'no-fly'`. -/
inductive DroneCondition
  | excellent
  | good
  | marginal
  | noFly
deriving DecidableEq, Repr

/-- Strictness rank: larger is better, `noFly` is the bottom. -/
def condRank : DroneCondition → ℕ
  | DroneCondition.excellent => 3
  | DroneCondition.good => 2
  | DroneCondition.marginal => 1
  | DroneCondition.noFly => 0

/-- Wind analysis step of `analyzeDroneCondition` (DJI limits ~25mph). -/
def windRule (windSpeed : ℚ) :
    DroneCondition × List String → DroneCondition × List String
  | (c, issues) =>
    if windSpeed ≥ 25 then
      (DroneCondition.noFly, issues ++ ["Winds exceed drone limits"])
    else if windSpeed ≥ 20 then
      (DroneCondition.marginal, issues ++ ["High winds - experienced pilots only"])
    else if windSpeed ≥ 15 then
      ((if c = DroneCondition.excellent then DroneCondition.good else c),
        issues ++ ["Moderate winds"])
    else (c, issues)

/-- Precipitation analysis step of `analyzeDroneCondition`. -/
def precipRule (precipChance : ℚ) (forecast : String) :
    DroneCondition × List String → DroneCondition × List String
  | (c, issues) =>
    if precipChance ≥ 70 ∨ jsIncludes (jsLower forecast) "rain"
        ∨ jsIncludes (jsLower forecast) "snow"
        ∨ jsIncludes (jsLower forecast) "storm" then
      (DroneCondition.noFly, issues ++ ["Precipitation likely"])
    else if precipChance ≥ 40 then
      ((if c ≠ DroneCondition.noFly then DroneCondition.marginal else c),
        issues ++ ["Chance of precipitation"])
    else (c, issues)

/-- Temperature analysis step of `analyzeDroneCondition` (battery
performance). -/
def tempRule (temperature : ℚ) :
    DroneCondition × List String → DroneCondition × List String
  | (c, issues) =>
    if temperature ≤ 20 then
      ((if c = DroneCondition.excellent then DroneCondition.good else c),
        issues ++ ["Cold - reduced battery life"])
    else if temperature ≤ 32 then
      ((if c = DroneCondition.excellent then DroneCondition.good else c),
        issues ++ ["Cold - monitor battery"])
    else if temperature ≥ 95 then
      ((if c = DroneCondition.excellent then DroneCondition.good else c),
        issues ++ ["Hot - risk of overheating"])
    else (c, issues)

/-- Fog/visibility step of `analyzeDroneCondition`. -/
def fogRule (forecast : String) :
    DroneCondition × List String → DroneCondition × List String
  | (c, issues) =>
    if jsIncludes (jsLower forecast) "fog" then
      (DroneCondition.noFly, issues ++ ["Fog - visibility below Part 107 minimums"])
    else (c, issues)

/-- The function `analyzeDroneCondition` from `weather/nws.ts`: the source mutates
`condition`/`issues` through the four rule blocks in order; here that
sequence is the left-to-right composition of the four rules starting from
`excellent` with no issues. -/
def analyzeDroneCondition (windSpeed precipChance temperature : ℚ)
    (forecast : String) : DroneCondition × List String :=
  fogRule forecast
    (tempRule temperature
      (precipRule precipChance forecast
        (windRule windSpeed (DroneCondition.excellent, []))))

/-! ## Best flying window (`fetchDroneForecast`) -/

/-- One rated forecast hour, as consumed by the best-window scan in
`fetchDroneForecast` (only the `hour` and `condition` fields take part
in the scan). -/
structure DroneHour where
  hour : ℕ
  condition : DroneCondition
deriving DecidableEq, Repr

/-- An hour counts toward windows when rated excellent or good
(`hour.condition === 'excellent' || hour.condition === 'good'`). -/
def flyableCond (c : DroneCondition) : Bool :=
  c = DroneCondition.excellent || c = DroneCondition.good

/-- The mutable locals of the best-window loop in `fetchDroneForecast`. -/
structure WindowState where
  bestWindowStart : Option ℕ
  bestWindowEnd : Option ℕ
  currentWindowStart : Option ℕ
  longestWindow : ℕ
  currentWindowLength : ℕ
  flyableHours : ℕ
deriving DecidableEq, Repr

/-- Loop-local initial values (`null`/`0`). -/
def initWindowState : WindowState :=
  { bestWindowStart := none
    bestWindowEnd := none
    currentWindowStart := none
    longestWindow := 0
    currentWindowLength := 0
    flyableHours := 0 }

/-- One iteration of the `for (const hour of todayHours)` loop.  In the
source, `bestWindowEnd` is the `hour` field of the element found by
`h.hour === currentWindowStart` plus `currentWindowLength - 1`; that
element's `hour` field is `currentWindowStart` itself. -/
def windowStep (s : WindowState) (h : DroneHour) : WindowState :=
  if flyableCond h.condition then
    { s with
      flyableHours := s.flyableHours + 1
      currentWindowStart := some (s.currentWindowStart.getD h.hour)
      currentWindowLength := s.currentWindowLength + 1 }
  else
    if s.currentWindowLength > s.longestWindow then
      { s with
        longestWindow := s.currentWindowLength
        bestWindowStart := s.currentWindowStart
        bestWindowEnd :=
          s.currentWindowStart.map (fun st => st + s.currentWindowLength - 1)
        currentWindowStart := none
        currentWindowLength := 0 }
    else
      { s with
        currentWindowStart := none
        currentWindowLength := 0 }

/-- The whole loop. -/
def windowScan (hours : List DroneHour) : WindowState :=
  hours.foldl windowStep initWindowState

/-- The trailing `if the last window was the longest` check plus the
selected `(bestWindowStart, bestWindowEnd, flyableHours)` triple. -/
def finalizeWindow (s : WindowState) : Option ℕ × Option ℕ × ℕ :=
  if s.currentWindowLength > s.longestWindow ∧ s.currentWindowStart ≠ none then
    (s.currentWindowStart,
      s.currentWindowStart.map (fun st => st + s.currentWindowLength - 1),
      s.flyableHours)
  else (s.bestWindowStart, s.bestWindowEnd, s.flyableHours)

/-- Best-window computation of `fetchDroneForecast`: loop then the
trailing longest-window check. -/
def bestWindowOf (hours : List DroneHour) : Option ℕ × Option ℕ × ℕ :=
  finalizeWindow (windowScan hours)

/-- The function `formatHour` from `weather/nws.ts`. -/
def formatHour (hour : ℕ) : String :=
  if hour = 0 ∨ hour = 24 then "12 AM"
  else if hour = 12 then "12 PM"
  else if hour < 12 then toString hour ++ " AM"
  else toString (hour - 12) ++ " PM"

/-- The printed `bestWindow` label:
`formatHour(bestWindowStart) - formatHour(bestWindowEnd + 1)`, or `null`
when no window exists. -/
def bestWindowLabel (hours : List DroneHour) : Option String :=
  match bestWindowOf hours with
  | (some st, some en, _) => some (formatHour st ++ " - " ++ formatHour (en + 1))
  | _ => none

/-- Count of flyable hours in the input. -/
def countFly (hours : List DroneHour) : ℕ :=
  (hours.filter (fun h => flyableCond h.condition)).length

/-- Spec-side decomposition of the rated hours into maximal contiguous
flyable runs, each recorded as (start hour, length). -/
def flyRuns : List DroneHour → List (ℕ × ℕ)
  | [] => []
  | h :: t =>
    if flyableCond h.condition then
      (h.hour, (t.takeWhile (fun x => flyableCond x.condition)).length + 1) ::
        flyRuns (t.dropWhile (fun x => flyableCond x.condition))
    else flyRuns t
termination_by l => l.length
decreasing_by
  · simp only [List.length_cons]
    exact Nat.lt_succ_of_le
      ((List.IsSuffix.sublist (List.dropWhile_suffix _)).length_le)
  · simp

/-- Spec-side selection: the first run whose length is at least every
run's length — i.e. the longest run, ties resolved to the earliest. -/
def firstLongestRun (rs : List (ℕ × ℕ)) : Option (ℕ × ℕ) :=
  rs.find? (fun r => rs.all (fun q => decide (q.2 ≤ r.2)))

/-- Length of an optional candidate run (`0` when absent). -/
def lenOfRun : Option (ℕ × ℕ) → ℕ
  | none => 0
  | some r => r.2

/-- One comparison step of the implicit run maximisation performed by the
loop: a candidate replaces the current best only when strictly longer. -/
def pickRun (acc : Option (ℕ × ℕ)) (r : ℕ × ℕ) : Option (ℕ × ℕ) :=
  if r.2 > lenOfRun acc then some r else acc

/-- Proof-infrastructure view of the loop state between runs: best-so-far
candidate `b`, flyable count `fl`, no open window. -/
def cleanState (b : Option (ℕ × ℕ)) (fl : ℕ) : WindowState :=
  { bestWindowStart := b.map Prod.fst
    bestWindowEnd := b.map (fun r => r.1 + r.2 - 1)
    currentWindowStart := none
    longestWindow := lenOfRun b
    currentWindowLength := 0
    flyableHours := fl }

/-- Loop state inside an open window: the open run started at hour `st`
and has accumulated length `k`. -/
def openState (b : Option (ℕ × ℕ)) (fl st k : ℕ) : WindowState :=
  { bestWindowStart := b.map Prod.fst
    bestWindowEnd := b.map (fun r => r.1 + r.2 - 1)
    currentWindowStart := some st
    longestWindow := lenOfRun b
    currentWindowLength := k
    flyableHours := fl }

/-- Packaging of a selected candidate run into the
`(bestWindowStart, bestWindowEnd, flyableHours)` triple. -/
def runResult (m : Option (ℕ × ℕ)) (fl : ℕ) : Option ℕ × Option ℕ × ℕ :=
  (m.map Prod.fst, m.map (fun r => r.1 + r.2 - 1), fl)

/-! ## Tabular observation parser (`fetchAirportObservation`) -/

/-- JavaScript `Math.round`: round half toward positive infinity. -/
def jsRound (q : ℚ) : ℤ :=
  ⌊q + 1 / 2⌋

/-- Rounding `Math.round(x * 100) / 100` to two decimal places. -/
def round2 (q : ℚ) : ℚ :=
  (jsRound (q * 100) : ℚ) / 100

/-- Fallback parse `parseFloat(cell) || d`: parse-failure (`NaN`) and a parsed `0` both
fall back to the default. -/
def parseFloatOr (cell : String) (d : ℚ) : ℚ :=
  numOr (jsParseFloat cell) d

/-- Fallback parse `parseInt(cell) || d` for integer cells. -/
def parseIntOr (cell : String) (d : ℤ) : ℤ :=
  match jsParseInt cell with
  | some v => if v = 0 then d else v
  | none => d

/-- The `STATION_NAMES` lookup. -/
def stationNames (stationId : String) : Option String :=
  if stationId = "KBUF" then some "Buffalo Intl Airport" else none

/-- The typed most-recent observation produced by
`fetchAirportObservation`. -/
structure AirportObservation where
  stationId : String
  stationName : String
  observationTime : String
  temperature : ℚ
  dewPoint : ℚ
  humidity : ℤ
  wind : String
  visibility : ℚ
  weather : String
  sky : String
  pressureIn : ℚ
  pressureMb : ℚ
  precipToday : ℚ
  precipYesterday : ℚ
deriving DecidableEq, Repr

/-- Construction of `currentObs` from one table row's cell texts
(columns: 0 date, 1 time, 2 wind, 3 visibility, 4 weather, 5 sky,
6 temperature, 7 dew point, 10 humidity, 13 altimeter, 14 sea level,
15 one-hour precipitation). -/
def mkCurrentObs (stationId : String) (cells : List String) :
    AirportObservation :=
  { stationId := stationId
    stationName := strOr (stationNames stationId) stationId
    observationTime := cells.getD 1 ""
    temperature := parseFloatOr (cells.getD 6 "") 0
    dewPoint := parseFloatOr (cells.getD 7 "") 0
    humidity := parseIntOr (cells.getD 10 "") 0
    wind := strOr (some (cells.getD 2 "")) "Calm"
    visibility := parseFloatOr (cells.getD 3 "") 10
    weather := strOr (some (cells.getD 4 "")) "Fair"
    sky := strOr (some (cells.getD 5 "")) "Clear"
    pressureIn := parseFloatOr (cells.getD 13 "") 0
    pressureMb := parseFloatOr (cells.getD 14 "") 0
    precipToday := 0
    precipYesterday := 0 }

/-- Value a one-hour precipitation cell contributes to its day's sum:
the parsed value when it is a number strictly between 0 and 10,
otherwise 0 (`!isNaN(v) && v > 0 && v < 10`). -/
def precipCellValue (cell : String) : ℚ :=
  match jsParseFloat cell with
  | some v => if 0 < v ∧ v < 10 then v else 0
  | none => 0

/-- One iteration of the row loop of `fetchAirportObservation`,
restricted to the precipitation accumulators `(todayPrecip,
yesterdayPrecip)`: rows with fewer than 16 cells or an unparseable date
cell are skipped; a parsed in-range 1-hour precipitation value is added
to the matching day's sum. -/
def obsRowStep (todayDate yesterdayDate : ℤ) (acc : ℚ × ℚ)
    (cells : List String) : ℚ × ℚ :=
  if cells.length < 16 then acc
  else
    match jsParseInt (cells.getD 0 "") with
    | none => acc
    | some dayNum =>
      match jsParseFloat (cells.getD 15 "") with
      | some v =>
        if 0 < v ∧ v < 10 then
          if dayNum = todayDate then (acc.1 + v, acc.2)
          else if dayNum = yesterdayDate then (acc.1, acc.2 + v)
          else acc
        else acc
      | none => acc

/-- First row with at least 16 cells, a parseable date cell and the
date equal to today becomes `currentObs` (rows are newest-first). -/
def findCurrentObs (stationId : String) (todayDate : ℤ) :
    List (List String) → Option AirportObservation
  | [] => none
  | cells :: rest =>
    if cells.length < 16 then findCurrentObs stationId todayDate rest
    else
      match jsParseInt (cells.getD 0 "") with
      | none => findCurrentObs stationId todayDate rest
      | some dayNum =>
        if dayNum = todayDate then some (mkCurrentObs stationId cells)
        else findCurrentObs stationId todayDate rest

/-- The whole of `fetchAirportObservation` downstream of the HTML row
extraction: `rows` is the list of per-row cell texts. -/
def fetchAirportObservationModel (stationId : String)
    (todayDate yesterdayDate : ℤ) (rows : List (List String)) :
    Option AirportObservation :=
  let totals := rows.foldl (obsRowStep todayDate yesterdayDate) (0, 0)
  match findCurrentObs stationId todayDate rows with
  | some obs =>
    some { obs with
      precipToday := round2 totals.1
      precipYesterday := round2 totals.2 }
  | none => none

/-- Spec-side per-row contribution to today's accumulation. -/
def rowContrib (d : ℤ) (cells : List String) : ℚ :=
  if cells.length < 16 then 0
  else
    match jsParseInt (cells.getD 0 "") with
    | some dayNum => if dayNum = d then precipCellValue (cells.getD 15 "") else 0
    | none => 0

/-! ## Text-section extractors (`fetchAFD`, `fetchHWO`)

The extractors run on the decoded text of the feed's preformatted block;
sections are modelled as `List Char`. -/

/-- JavaScript `String.prototype.trim`. -/
def trimWs (l : List Char) : List Char :=
  ((l.dropWhile isWsChar).reverse.dropWhile isWsChar).reverse

/-- Is the head of the list a whitespace character? -/
def headWs : List Char → Bool
  | [] => false
  | c :: _ => isWsChar c

/-- Character-by-character implementation of `.replace(/\n\s+/g, ' ')`:
a newline followed by whitespace is replaced by one space and the flag
records that the (greedy) whitespace run is still being consumed; other
characters (including lone newlines and whitespace runs not preceded by
a newline) are kept. -/
def collapseAux (inRun : Bool) : List Char → List Char
  | [] => []
  | c :: rest =>
    if inRun && isWsChar c then collapseAux true rest
    else if c = '\n' && headWs rest then ' ' :: collapseAux true rest
    else c :: collapseAux false rest

/-- The replace `.replace(/\n\s+/g, ' ')`. -/
def collapseNlWs (l : List Char) : List Char :=
  collapseAux false l

/-- The shared post-processing of every extracted section:
`.trim().replace(/\n\s+/g, ' ').substring(0, cap)`. -/
def cleanSection (cap : ℕ) (s : List Char) : List Char :=
  (collapseNlWs (trimWs s)).take cap

/-- Lower-casing for the `/i` regex flag. -/
def lowerL (l : List Char) : List Char :=
  l.map Char.toLower

/-- Case-insensitive `startsWith`. -/
def startsWithCI (pat s : List Char) : Bool :=
  startsWithL (lowerL pat) (lowerL s)

/-- Scan for the first (case-insensitive) occurrence of `pat` and return
the remainder after it. -/
def afterMarkerCI (pat : List Char) : List Char → Option (List Char)
  | [] => if startsWithCI pat [] then some [] else none
  | c :: rest =>
    if startsWithCI pat (c :: rest) then some ((c :: rest).drop pat.length)
    else afterMarkerCI pat rest

/-- The lazy capture `([\s\S]*?)` bounded by the lookahead `(?=\.\w|$)`:
take characters until a dot followed by a word character, or the end. -/
def captureUntilDotWord : List Char → List Char
  | [] => []
  | '.' :: c :: rest =>
    if isWordChar c then [] else '.' :: captureUntilDotWord (c :: rest)
  | c :: rest => c :: captureUntilDotWord rest

/-- The pattern `.*?\.\.\.` after a section header: the earliest `...` reachable
without crossing a newline (`.` does not match newlines); `none` when a
newline comes first, in which case the regex engine retries at a later
header occurrence. -/
def afterDotsNoNl : List Char → Option (List Char)
  | '.' :: '.' :: '.' :: rest => some rest
  | '\n' :: _ => none
  | _ :: rest => afterDotsNoNl rest
  | [] => none

/-- The pattern `[^.]*\.\.\.` after a section header: skip non-dot characters; the
first dot must start `...`, otherwise this occurrence fails. -/
def afterNonDotThenDots : List Char → Option (List Char)
  | '.' :: '.' :: '.' :: rest => some rest
  | '.' :: _ => none
  | _ :: rest => afterNonDotThenDots rest
  | [] => none

/-- Scan for a header `pat` (case-insensitive) followed by
`.*?\.\.\.`, retrying at later occurrences, and capture up to the
`(?=\.\w|$)` boundary. -/
def scanCaptureND (pat : List Char) : List Char → Option (List Char)
  | [] => none
  | c :: rest =>
    if startsWithCI pat (c :: rest) then
      match afterDotsNoNl ((c :: rest).drop pat.length) with
      | some afterDots => some (captureUntilDotWord afterDots)
      | none => scanCaptureND pat rest
    else scanCaptureND pat rest

/-- The lazy capture bounded by a disjunction of stop markers or end of
text (e.g. `(?=\.DAYS TWO|\.SPOTTER|$)`). -/
def captureUntilMarkers (stops : List (List Char)) : List Char → List Char
  | [] => []
  | c :: rest =>
    if stops.any (fun p => startsWithCI p (c :: rest)) then []
    else c :: captureUntilMarkers stops rest

/-- Scan for a header `pat` followed by `[^.]*\.\.\.`, retrying at later
occurrences, and capture up to one of the stop markers or end. -/
def scanCaptureHWO (pat : List Char) (stops : List (List Char)) :
    List Char → Option (List Char)
  | [] => none
  | c :: rest =>
    if startsWithCI pat (c :: rest) then
      match afterNonDotThenDots ((c :: rest).drop pat.length) with
      | some afterDots => some (captureUntilMarkers stops afterDots)
      | none => scanCaptureHWO pat stops rest
    else scanCaptureHWO pat stops rest

/-- A section `sections[key]` is set only on a match; the caller then defaults a
missing section to the empty string (`sections.key || ''`). -/
def sectionOr (cap : ℕ) (x : Option (List Char)) : List Char :=
  match x with
  | some c => cleanSection cap c
  | none => []

/-- The section fields of the parsed Area Forecast Discussion. -/
structure AFDSections where
  synopsis : List Char
  nearTerm : List Char
  shortTerm : List Char
  longTerm : List Char
deriving DecidableEq, Repr

/-- The section extraction of `fetchAFD` over the decoded `<pre>` text. -/
def extractAFD (raw : List Char) : AFDSections :=
  { synopsis :=
      sectionOr 500 ((afterMarkerCI ".SYNOPSIS...".data raw).map
        captureUntilDotWord)
    nearTerm := sectionOr 500 (scanCaptureND ".NEAR TERM".data raw)
    shortTerm := sectionOr 500 (scanCaptureND ".SHORT TERM".data raw)
    longTerm := sectionOr 500 (scanCaptureND ".LONG TERM".data raw) }

/-- Case-insensitive substring test (one keyword of the hazard scan). -/
def containsCI (s pat : List Char) : Bool :=
  containsAux (lowerL s) (lowerL pat)

/-- The keyword regex `/watch|warning|advisory|flood|storm|wind|snow|ice|freeze|blizzard|gale/i`
tested against one extracted region. -/
def hazardKeywordTest (s : List Char) : Bool :=
  containsCI s "watch".data || containsCI s "warning".data ||
  containsCI s "advisory".data || containsCI s "flood".data ||
  containsCI s "storm".data || containsCI s "wind".data ||
  containsCI s "snow".data || containsCI s "ice".data ||
  containsCI s "freeze".data || containsCI s "blizzard".data ||
  containsCI s "gale".data

/-- The section fields of the parsed Hazardous Weather Outlook. -/
structure HWOSections where
  dayOne : List Char
  daysTwoThroughSeven : List Char
  spotterInfo : List Char
  hasActiveHazards : Bool
deriving DecidableEq, Repr

/-- The section extraction of `fetchHWO` over the decoded `<pre>` text. -/
def extractHWO (raw : List Char) : HWOSections :=
  let dayOne := sectionOr 500 (scanCaptureHWO ".DAY ONE".data
    [".DAYS TWO".data, ".SPOTTER".data] raw)
  let daysTwoThroughSeven := sectionOr 500 (scanCaptureHWO
    ".DAYS TWO THROUGH SEVEN".data [".SPOTTER".data] raw)
  let spotterInfo := sectionOr 200 (scanCaptureHWO
    ".SPOTTER INFORMATION STATEMENT".data ["$$".data] raw)
  { dayOne := dayOne
    daysTwoThroughSeven := daysTwoThroughSeven
    spotterInfo := spotterInfo
    hasActiveHazards :=
      hazardKeywordTest dayOne || hazardKeywordTest daysTwoThroughSeven }

/-- Formalization of the claim's "internal whitespace collapsed to single
spaces": no two adjacent whitespace characters remain. -/
def wsCollapsedB : List Char → Bool
  | [] => true
  | [_] => true
  | a :: b :: rest => !(isWsChar a && isWsChar b) && wsCollapsedB (b :: rest)

/-- What the replace actually guarantees: no newline directly followed by
a whitespace character remains. -/
def NlWsFree (l : List Char) : Prop :=
  List.Chain' (fun a b => a = '\n' → isWsChar b = false) l

/-! ## Snapshot state and change detection (`lib/state.ts`) -/

/-- The fields of the Tempest sensor observation consumed by
`state.ts`. -/
structure TempestData where
  temperatureF : ℚ
  windSpeed : ℚ
  windDirection : String
  pressure : ℚ
deriving DecidableEq, Repr

/-- One normalized alert, restricted to the fields `state.ts` and the
entry points read. -/
structure AlertRec where
  type : String
  severity : Severity
  headline : String
deriving DecidableEq, Repr

/-- The AFD fields consumed by `state.ts`. -/
structure AFDView where
  synopsis : String
  nearTerm : String
deriving DecidableEq, Repr

/-- The HWO fields consumed by `state.ts`. -/
structure HWOView where
  dayOne : String
  hasActiveHazards : Bool
deriving DecidableEq, Repr

/-- The record `WeatherData`, restricted to the fields that take part in snapshot
construction and change detection (`forecast`, `droneForecast`, `precip`
and `fetchedAt` are never read by `state.ts` or the cycle decisions). -/
structure WeatherData where
  tempest : Option TempestData
  afd : Option AFDView
  hwo : Option HWOView
  alerts : List AlertRec
  airport : Option AirportObservation
deriving DecidableEq, Repr

/-- The record `WeatherState.alerts`. -/
structure AlertsState where
  count : ℕ
  types : List String
  headlines : List String
deriving DecidableEq, Repr

/-- The record `WeatherState.conditions`. -/
structure ConditionsState where
  temperature : ℚ
  wind : String
  pressure : ℚ
  weather : String
  visibility : ℚ
deriving DecidableEq, Repr

/-- The record `WeatherState.afd`. -/
structure AFDStateRec where
  synopsis : String
  nearTerm : String
deriving DecidableEq, Repr

/-- The record `WeatherState.hwo`. -/
structure HWOStateRec where
  dayOne : String
  hasActiveHazards : Bool
deriving DecidableEq, Repr

/-- The record `WeatherState.precip`. -/
structure PrecipState where
  today : ℚ
  yesterday : ℚ
deriving DecidableEq, Repr

/-- The persisted snapshot (`WeatherState` in `state.ts`). -/
structure WeatherState where
  timestamp : String
  alerts : AlertsState
  conditions : ConditionsState
  afd : AFDStateRec
  hwo : HWOStateRec
  precip : PrecipState
deriving DecidableEq, Repr

/-- The template-string fallback
``` `${data.tempest?.windDirection} ${data.tempest?.windSpeed}` ```
(with `undefined` interpolated when the sensor data is absent). -/
def tempestWindStr (t : Option TempestData) : String :=
  match t with
  | some t => t.windDirection ++ " " ++ toString t.windSpeed
  | none => "undefined undefined"

/-- The snapshot assembled by `saveState` (the timestamp is the wall
clock at save time, passed in here). -/
def stateOf (data : WeatherData) (timestamp : String) : WeatherState :=
  { timestamp := timestamp
    alerts :=
      { count := data.alerts.length
        types := data.alerts.map (fun a => a.type)
        headlines := data.alerts.map (fun a => a.headline) }
    conditions :=
      { temperature := numOr (data.airport.map (fun a => a.temperature))
          (numOr (data.tempest.map (fun t => t.temperatureF)) 0)
        wind := strOr (data.airport.map (fun a => a.wind))
          (tempestWindStr data.tempest)
        pressure := numOr (data.airport.map (fun a => a.pressureMb))
          (numOr (data.tempest.map (fun t => t.pressure)) 0)
        weather := strOr (data.airport.map (fun a => a.weather)) ""
        visibility := numOr (data.airport.map (fun a => a.visibility)) 10 }
    afd :=
      { synopsis := strOr (data.afd.map (fun x => x.synopsis)) ""
        nearTerm := strOr (data.afd.map (fun x => x.nearTerm)) "" }
    hwo :=
      { dayOne := strOr (data.hwo.map (fun x => x.dayOne)) ""
        hasActiveHazards :=
          boolOrFalse (data.hwo.map (fun x => x.hasActiveHazards)) }
    precip :=
      { today := numOr (data.airport.map (fun a => a.precipToday)) 0
        yesterday :=
          numOr (data.airport.map (fun a => a.precipYesterday)) 0 } }

/-- The change descriptions produced by `detectChanges`, modelled by
constructor (with the data interpolated into the source's message
strings as payload) rather than by formatted text. -/
inductive ChangeMsg
  | initialReport
  | newAlerts (types : List String)
  | expiredAlerts (types : List String)
  | temperature (risen : Bool) (diff prev cur : ℚ)
  | visibilityDropped (cur : ℚ)
  | visibilityImproved (cur : ℚ)
  | precipIncrease (inc total : ℚ)
  | snowBegun (cur : String)
  | rainBegun (cur : String)
  | conditionsChanged (prev cur : String)
  | forecastDiscussionUpdated
  | hwoActiveHazards
deriving DecidableEq, Repr

/-- The record `StateChanges` from `state.ts`. -/
structure StateChanges where
  hasChanges : Bool
  alertChanges : List ChangeMsg
  conditionChanges : List ChangeMsg
  forecastChanges : List ChangeMsg
deriving DecidableEq, Repr

/-- JavaScript `substring(0, 50)`. -/
def take50 (s : String) : String :=
  ⟨s.data.take 50⟩

/-- The function `detectChanges` from `state.ts`.  Each rule contributes its appended
messages (in source order) and whether it sets `hasChanges`.  Note the
source's generic `Conditions changed from X to Y` branch pushes its
message without setting `hasChanges`. -/
def detectChanges (current : WeatherData) (previous : Option WeatherState) :
    StateChanges :=
  match previous with
  | none =>
    { hasChanges := true
      alertChanges := [ChangeMsg.initialReport]
      conditionChanges := []
      forecastChanges := [] }
  | some prev =>
    let currentAlertTypes := current.alerts.map (fun a => a.type)
    let newAlertTypes := currentAlertTypes.filter
      (fun t => !(prev.alerts.types.contains t))
    let expiredTypes := prev.alerts.types.filter
      (fun t => !(currentAlertTypes.contains t))
    let newAlertsChange : List ChangeMsg × Bool :=
      if newAlertTypes ≠ [] then ([ChangeMsg.newAlerts newAlertTypes], true)
      else ([], false)
    let expiredChange : List ChangeMsg × Bool :=
      if expiredTypes ≠ [] then ([ChangeMsg.expiredAlerts expiredTypes], true)
      else ([], false)
    let currentTemp := numOr (current.airport.map (fun a => a.temperature))
      (numOr (current.tempest.map (fun t => t.temperatureF)) 0)
    let tempDiff := |currentTemp - prev.conditions.temperature|
    let tempChange : List ChangeMsg × Bool :=
      if tempDiff ≥ 5 then
        ([ChangeMsg.temperature
            (decide (prev.conditions.temperature < currentTemp)) tempDiff
            prev.conditions.temperature currentTemp], true)
      else ([], false)
    let currentVis := numOr (current.airport.map (fun a => a.visibility)) 10
    let visChange : List ChangeMsg × Bool :=
      if currentVis < 3 ∧ prev.conditions.visibility ≥ 3 then
        ([ChangeMsg.visibilityDropped currentVis], true)
      else if currentVis ≥ 6 ∧ prev.conditions.visibility < 3 then
        ([ChangeMsg.visibilityImproved currentVis], true)
      else ([], false)
    let currentPrecip := numOr (current.airport.map (fun a => a.precipToday)) 0
    let precipInc := currentPrecip - prev.precip.today
    let precipChange : List ChangeMsg × Bool :=
      if precipInc ≥ 1 / 10 then
        ([ChangeMsg.precipIncrease precipInc currentPrecip], true)
      else ([], false)
    let currentWeather := strOr (current.airport.map (fun a => a.weather)) ""
    let weatherChange : List ChangeMsg × Bool :=
      if currentWeather ≠ "" ∧ currentWeather ≠ prev.conditions.weather then
        if jsIncludes (jsLower currentWeather) "snow" ∧
            ¬ jsIncludes (jsLower prev.conditions.weather) "snow" then
          ([ChangeMsg.snowBegun currentWeather], true)
        else if jsIncludes (jsLower currentWeather) "rain" ∧
            ¬ jsIncludes (jsLower prev.conditions.weather) "rain" then
          ([ChangeMsg.rainBegun currentWeather], true)
        else if prev.conditions.weather ≠ "" ∧
            currentWeather ≠ prev.conditions.weather then
          ([ChangeMsg.conditionsChanged prev.conditions.weather
              currentWeather], false)
        else ([], false)
      else ([], false)
    let currentSynopsis := strOr (current.afd.map (fun x => x.synopsis)) ""
    let synopsisChange : List ChangeMsg × Bool :=
      if prev.afd.synopsis ≠ "" ∧ currentSynopsis ≠ "" ∧
          ¬ jsIncludes currentSynopsis (take50 prev.afd.synopsis) then
        ([ChangeMsg.forecastDiscussionUpdated], true)
      else ([], false)
    let hwoChange : List ChangeMsg × Bool :=
      if boolOrFalse (current.hwo.map (fun x => x.hasActiveHazards)) ∧
          ¬ prev.hwo.hasActiveHazards then
        ([ChangeMsg.hwoActiveHazards], true)
      else ([], false)
    { hasChanges := newAlertsChange.2 || expiredChange.2 || tempChange.2 ||
        visChange.2 || precipChange.2 || weatherChange.2 ||
        synopsisChange.2 || hwoChange.2
      alertChanges := newAlertsChange.1 ++ expiredChange.1
      conditionChanges := tempChange.1 ++ visChange.1 ++ precipChange.1 ++
        weatherChange.1
      forecastChanges := synopsisChange.1 ++ hwoChange.1 }

/-! ## Fetch-and-decide cycles (entry points) -/

/-- The function `hasActiveWarnings` from `state.ts`. -/
def hasActiveWarnings (data : WeatherData) : Bool :=
  data.alerts.any (fun a =>
    jsIncludes (jsLower a.type) "warning" || a.severity == Severity.high)

/-- What a completed cycle did: whether it persisted the snapshot and
whether it sent an email. -/
structure CycleOutcome where
  savedState : Bool
  emailSent : Bool
deriving DecidableEq, Repr

/-- The decision structure of the hourly alert-check entry point: with no
active warnings the state is saved and no email sent; otherwise an update
is sent (and then the state saved) only when `hasChanges` is set, the
last update is at least 2 hours old, or there is no previous state — and
when no update is warranted the cycle completes WITHOUT saving.  (A
failed send exits the process, so only the successful-send path
completes.) -/
def alertCheckCycle (data : WeatherData) (previousState : Option WeatherState)
    (hoursSinceUpdate : ℚ) : CycleOutcome :=
  if !(hasActiveWarnings data) then
    { savedState := true, emailSent := false }
  else
    let changes := detectChanges data previousState
    let shouldSend := changes.hasChanges || decide (hoursSinceUpdate ≥ 2) ||
      decide (previousState = none)
    if shouldSend then { savedState := true, emailSent := true }
    else { savedState := false, emailSent := false }

/-- The decision structure of the daily briefing entry point: the cycle
aborts (does not complete) when both primary sources are absent or the
send fails; every completed cycle sends the email and then saves the
snapshot. -/
def briefingCycle (data : WeatherData) : Option CycleOutcome :=
  if data.tempest = none ∧ data.afd = none then none
  else some { savedState := true, emailSent := true }

/-! ## Theorems -/

theorem condRank_le_three (c : DroneCondition) : condRank c ≤ 3 := by
  cases c <;> decide

theorem collapseAux_cons_not_ws (flag : Bool) (r : Char) (t : List Char)
    (hr : isWsChar r = false) :
    collapseAux flag (r :: t) = r :: collapseAux false t := by
  have hrn : r ≠ '\n' := by
    rintro rfl
    simp [isWsChar] at hr
  simp [collapseAux, hr, hrn]

theorem collapseAux_nlWsFree (l : List Char) : ∀ flag : Bool,
    NlWsFree (collapseAux flag l) := by
  induction l with
  | nil =>
    intro flag
    simp [collapseAux, NlWsFree]
  | cons c rest ih =>
    intro flag
    by_cases h1 : (flag && isWsChar c) = true
    · rw [show collapseAux flag (c :: rest) = collapseAux true rest from by
        simp [collapseAux, h1]]
      exact ih true
    · by_cases h2 : (c = '\n' && headWs rest) = true
      · rw [show collapseAux flag (c :: rest) = ' ' :: collapseAux true rest
          from by simp [collapseAux, h1, h2]]
        rw [NlWsFree, List.chain'_cons']
        exact ⟨fun b _ hsp => absurd hsp (by decide), ih true⟩
      · rw [show collapseAux flag (c :: rest) = c :: collapseAux false rest
          from by simp [collapseAux, h1, h2]]
        rw [NlWsFree, List.chain'_cons']
        refine ⟨?_, ih false⟩
        intro b hb hcn
        subst hcn
        have hws : headWs rest = false := by
          simpa using h2
        cases rest with
        | nil =>
          simp [collapseAux] at hb
        | cons r t =>
          have hr : isWsChar r = false := by
            simpa [headWs] using hws
          rw [collapseAux_cons_not_ws false r t hr] at hb
          simp at hb
          rw [hb] at hr
          exact hr

theorem cleanSection_props (cap : ℕ) (s : List Char) :
    (cleanSection cap s).length ≤ cap ∧ NlWsFree (cleanSection cap s) := by
  constructor
  · rw [cleanSection]
    exact List.length_take_le _ _
  · rw [cleanSection, collapseNlWs]
    exact List.Chain'.take (collapseAux_nlWsFree (trimWs s) false) cap

theorem sectionOr_props (cap : ℕ) (x : Option (List Char)) :
    (sectionOr cap x).length ≤ cap ∧ NlWsFree (sectionOr cap x) ∧
    (x = none → sectionOr cap x = []) := by
  cases x with
  | none => simp [sectionOr, NlWsFree]
  | some c =>
    exact ⟨(cleanSection_props cap c).1, (cleanSection_props cap c).2,
      by simp⟩

/-- C8 (counterexample): on input `".SYNOPSIS...a  b"` the extracted
synopsis is `"a  b"`, which still contains two adjacent whitespace
characters — internal whitespace is NOT collapsed to single spaces (only
newline-plus-whitespace runs are). -/
theorem section_ws_not_collapsed_counterexample :
    (extractAFD ".SYNOPSIS...a  b".data).synopsis = "a  b".data ∧
    wsCollapsedB "a  b".data = false := by
  constructor <;> with_unfolding_all decide

/-- C8 (amended): every section produced by the extractors is at most its
character cap long (500, or 200 for the spotter statement) and contains
no newline followed by a whitespace character (the `\n\s+` runs are
replaced by single spaces; other whitespace is untouched), and a section
whose pattern does not match is the empty string, never an absent
field. -/
theorem extract_sections_bounded (raw : List Char) :
    ((extractAFD raw).synopsis.length ≤ 500 ∧
      NlWsFree (extractAFD raw).synopsis) ∧
    ((extractAFD raw).nearTerm.length ≤ 500 ∧
      NlWsFree (extractAFD raw).nearTerm) ∧
    ((extractAFD raw).shortTerm.length ≤ 500 ∧
      NlWsFree (extractAFD raw).shortTerm) ∧
    ((extractAFD raw).longTerm.length ≤ 500 ∧
      NlWsFree (extractAFD raw).longTerm) ∧
    ((extractHWO raw).dayOne.length ≤ 500 ∧
      NlWsFree (extractHWO raw).dayOne) ∧
    ((extractHWO raw).daysTwoThroughSeven.length ≤ 500 ∧
      NlWsFree (extractHWO raw).daysTwoThroughSeven) ∧
    ((extractHWO raw).spotterInfo.length ≤ 200 ∧
      NlWsFree (extractHWO raw).spotterInfo) ∧
    (afterMarkerCI ".SYNOPSIS...".data raw = none →
      (extractAFD raw).synopsis = []) ∧
    (scanCaptureND ".NEAR TERM".data raw = none →
      (extractAFD raw).nearTerm = []) ∧
    (scanCaptureHWO ".DAY ONE".data [".DAYS TWO".data, ".SPOTTER".data]
        raw = none →
      (extractHWO raw).dayOne = []) := by
  simp only [extractAFD, extractHWO]
  refine ⟨⟨(sectionOr_props _ _).1, (sectionOr_props _ _).2.1⟩,
    ⟨(sectionOr_props _ _).1, (sectionOr_props _ _).2.1⟩,
    ⟨(sectionOr_props _ _).1, (sectionOr_props _ _).2.1⟩,
    ⟨(sectionOr_props _ _).1, (sectionOr_props _ _).2.1⟩,
    ⟨(sectionOr_props _ _).1, (sectionOr_props _ _).2.1⟩,
    ⟨(sectionOr_props _ _).1, (sectionOr_props _ _).2.1⟩,
    ⟨(sectionOr_props _ _).1, (sectionOr_props _ _).2.1⟩, ?_, ?_, ?_⟩
  · intro h
    simp [h, sectionOr]
  · intro h
    exact (sectionOr_props _ _).2.2 h
  · intro h
    exact (sectionOr_props _ _).2.2 h

/-- Witness for `extract_sections_bounded`: on empty input no pattern
matches and every section defaults to the empty string. -/
theorem extract_sections_bounded_witness :
    (extractAFD "".data).synopsis = [] ∧ (extractAFD "".data).nearTerm = [] ∧
    (extractHWO "".data).dayOne = [] :=
  ⟨(extract_sections_bounded "".data).2.2.2.2.2.2.2.1 (by decide),
    (extract_sections_bounded "".data).2.2.2.2.2.2.2.2.1 (by decide),
    (extract_sections_bounded "".data).2.2.2.2.2.2.2.2.2 (by decide)⟩

theorem fst_ite_pair {α β : Type} (c : Prop) [Decidable c] (a b : α × β) :
    (if c then a else b).1 = if c then a.1 else b.1 := by
  split <;> rfl

theorem mem_ite_list {α : Type} (x : α) (c : Prop) [Decidable c]
    (l l' : List α) :
    (x ∈ if c then l else l') ↔ (if c then x ∈ l else x ∈ l') := by
  split <;> simp

/-- C5: `detectChanges` reports a visibility drop exactly when the
current (effective) visibility is below 3 miles and the previous was at
least 3, and a recovery exactly when the current is at least 6 and the
previous was below 3; a 2-mile → 4-mile transition (last conjunct, a
closed instance) reports no visibility change.  The hypothesis
`a.visibility ≠ 0` reflects that `fetchAirportObservation` can never
produce a zero visibility (`parseFloat(visCell) || 10`). -/
theorem visibility_hysteresis (current : WeatherData) (prev : WeatherState)
    (a : AirportObservation) (ha : current.airport = some a)
    (h0 : a.visibility ≠ 0) :
    (∀ v : ℚ, ChangeMsg.visibilityDropped v ∈
        (detectChanges current (some prev)).conditionChanges ↔
      (v = a.visibility ∧ a.visibility < 3 ∧
        prev.conditions.visibility ≥ 3)) ∧
    (∀ v : ℚ, ChangeMsg.visibilityImproved v ∈
        (detectChanges current (some prev)).conditionChanges ↔
      (v = a.visibility ∧ a.visibility ≥ 6 ∧
        prev.conditions.visibility < 3)) ∧
    (detectChanges
        ⟨none, none, none, [],
          some ⟨"KBUF", "Buffalo Intl Airport", "12:00", 50, 30, 40, "N 5",
            4, "Fair", "Clear", 30, 1015, 0, 0⟩⟩
        (some ⟨"t", ⟨0, [], []⟩, ⟨50, "N 5", 1015, "Fair", 2⟩, ⟨"", ""⟩,
          ⟨"", false⟩, ⟨0, 0⟩⟩)).conditionChanges = [] := by
  have hnum : numOr (current.airport.map (fun a => a.visibility)) 10 =
      a.visibility := by
    simp [ha, numOr, h0]
  refine ⟨?_, ?_, by with_unfolding_all decide⟩
  · intro v
    simp only [detectChanges, hnum, List.mem_append, fst_ite_pair,
      mem_ite_list]
    simp
    tauto
  · intro v
    simp only [detectChanges, hnum, List.mem_append, fst_ite_pair,
      mem_ite_list]
    simp
    constructor
    · rintro ⟨himp, ⟨h6, hp⟩, rfl⟩
      exact ⟨rfl, h6, hp⟩
    · rintro ⟨rfl, h6, hp⟩
      exact ⟨fun h3 => absurd h6 (by linarith), ⟨h6, hp⟩, rfl⟩

/-- Witness for `visibility_hysteresis`: a 5-mile → 2-mile transition
reports the drop. -/
theorem visibility_hysteresis_witness :
    ChangeMsg.visibilityDropped 2 ∈
      (detectChanges
        ⟨none, none, none, [],
          some ⟨"KBUF", "Buffalo Intl Airport", "12:00", 50, 30, 40, "N 5",
            2, "Fair", "Clear", 30, 1015, 0, 0⟩⟩
        (some ⟨"t", ⟨0, [], []⟩, ⟨50, "N 5", 1015, "Fair", 5⟩, ⟨"", ""⟩,
          ⟨"", false⟩, ⟨0, 0⟩⟩)).conditionChanges :=
  ((visibility_hysteresis _ _
      ⟨"KBUF", "Buffalo Intl Airport", "12:00", 50, 30, 40, "N 5",
        2, "Fair", "Clear", 30, 1015, 0, 0⟩
      rfl (by norm_num)).1 2).mpr ⟨rfl, by norm_num, by norm_num⟩

/-- C1 (counterexample): a generic weather-description change
(`"Fair"` → `"Cloudy"`, neither a snow nor a rain onset, previous
description non-empty) appends its condition-change entry but leaves
`hasChanges = false` — the source's generic branch does not set
`hasChanges`. -/
theorem generic_change_counterexample :
    detectChanges
        ⟨none, none, none, [],
          some ⟨"KBUF", "Buffalo Intl Airport", "12:00", 40, 30, 40, "N 5",
            10, "Cloudy", "Clear", 30, 1015, 0, 0⟩⟩
        (some ⟨"t", ⟨0, [], []⟩, ⟨40, "N 5", 1015, "Fair", 10⟩, ⟨"", ""⟩,
          ⟨"", false⟩, ⟨0, 0⟩⟩) =
      { hasChanges := false, alertChanges := [],
        conditionChanges := [ChangeMsg.conditionsChanged "Fair" "Cloudy"],
        forecastChanges := [] } := by
  with_unfolding_all decide

/-- C1 (amended): whenever the generic weather-description rule fires
(current description non-empty and different from the previous, previous
non-empty, neither snow nor rain onset), the `conditions changed from X
to Y` entry is appended to the condition-change list — but this rule does
not set `hasChanges`, which may therefore remain `false`. -/
theorem generic_change_appended (current : WeatherData) (prev : WeatherState)
    (w : String)
    (hw : strOr (current.airport.map (fun a => a.weather)) "" = w)
    (hne : w ≠ "") (hdiff : w ≠ prev.conditions.weather)
    (hprev : prev.conditions.weather ≠ "")
    (hnosnow : ¬(jsIncludes (jsLower w) "snow" ∧
      ¬ jsIncludes (jsLower prev.conditions.weather) "snow"))
    (hnorain : ¬(jsIncludes (jsLower w) "rain" ∧
      ¬ jsIncludes (jsLower prev.conditions.weather) "rain")) :
    ChangeMsg.conditionsChanged prev.conditions.weather w ∈
      (detectChanges current (some prev)).conditionChanges := by
  simp only [detectChanges, hw]
  refine List.mem_append_right _ ?_
  rw [if_pos ⟨hne, hdiff⟩, if_neg hnosnow, if_neg hnorain,
    if_pos ⟨hprev, hdiff⟩]
  simp

/-- Witness for `generic_change_appended` at the
`"Fair"` → `"Cloudy"` input. -/
theorem generic_change_appended_witness :
    ChangeMsg.conditionsChanged "Fair" "Cloudy" ∈
      (detectChanges
        ⟨none, none, none, [],
          some ⟨"KBUF", "Buffalo Intl Airport", "12:00", 40, 30, 40, "N 5",
            10, "Cloudy", "Clear", 30, 1015, 0, 0⟩⟩
        (some ⟨"t", ⟨0, [], []⟩, ⟨40, "N 5", 1015, "Fair", 10⟩, ⟨"", ""⟩,
          ⟨"", false⟩, ⟨0, 0⟩⟩)).conditionChanges :=
  generic_change_appended _ _ "Cloudy" (by decide) (by decide) (by decide)
    (by decide) (by decide) (by decide)

/-- C4 (counterexample): with an active warning, an unchanged snapshot
and only 1 hour since the last update, the hourly alert-check cycle
completes without saving the snapshot. -/
theorem alert_cycle_skips_save_counterexample :
    hasActiveWarnings
        ⟨none, none, none,
          [⟨"Winter Storm Warning", Severity.moderate, "hl"⟩],
          some ⟨"KBUF", "Buffalo Intl Airport", "12:00", 40, 30, 40, "N 5",
            10, "Fair", "Clear", 30, 1015, 0, 0⟩⟩ = true ∧
    alertCheckCycle
        ⟨none, none, none,
          [⟨"Winter Storm Warning", Severity.moderate, "hl"⟩],
          some ⟨"KBUF", "Buffalo Intl Airport", "12:00", 40, 30, 40, "N 5",
            10, "Fair", "Clear", 30, 1015, 0, 0⟩⟩
        (some (stateOf
          ⟨none, none, none,
            [⟨"Winter Storm Warning", Severity.moderate, "hl"⟩],
            some ⟨"KBUF", "Buffalo Intl Airport", "12:00", 40, 30, 40, "N 5",
              10, "Fair", "Clear", 30, 1015, 0, 0⟩⟩ "t"))
        1 =
      { savedState := false, emailSent := false } := by
  constructor <;> with_unfolding_all decide

/-- C4 (amended): the daily briefing cycle saves the snapshot on every
completed run; the hourly alert-check cycle saves exactly when there are
no active warnings or an update is warranted (changes detected, ≥ 2
hours since the last update, or no previous state) — when there are
active warnings and no update is warranted, it completes without
saving. -/
theorem cycle_save_characterization :
    (∀ (data : WeatherData) (prev : Option WeatherState) (hrs : ℚ),
      (alertCheckCycle data prev hrs).savedState =
        (!(hasActiveWarnings data) || (detectChanges data prev).hasChanges ||
          decide (hrs ≥ 2) || decide (prev = none))) ∧
    (∀ (data : WeatherData) (out : CycleOutcome),
      briefingCycle data = some out → out.savedState = true) := by
  constructor
  · intro data prev hrs
    simp only [alertCheckCycle]
    by_cases h : hasActiveWarnings data <;> simp [h] <;> split_ifs <;>
      simp_all
  · intro data out h
    unfold briefingCycle at h
    split_ifs at h
    cases h
    rfl

/-- Witness for `cycle_save_characterization`: with no alerts the check
cycle saves, and a briefing cycle with sensor data present completes and
saves. -/
theorem cycle_save_characterization_witness :
    (alertCheckCycle ⟨none, none, none, [], none⟩ none 0).savedState =
      true ∧
    ∃ out : CycleOutcome,
      briefingCycle ⟨some ⟨50, 5, "N", 1015⟩, none, none, [], none⟩ =
        some out ∧ out.savedState = true := by
  constructor
  · rw [cycle_save_characterization.1 ⟨none, none, none, [], none⟩ none 0]
    with_unfolding_all decide
  · refine ⟨⟨true, true⟩, by with_unfolding_all decide,
      cycle_save_characterization.2
        ⟨some ⟨50, 5, "N", 1015⟩, none, none, [], none⟩ ⟨true, true⟩
        (by with_unfolding_all decide)⟩

theorem filter_not_contains_self {α : Type} [DecidableEq α] (l : List α) :
    l.filter (fun t => !(l.contains t)) = [] := by
  rw [List.filter_eq_nil_iff]
  intro a ha
  simp [List.contains, List.elem_iff, ha]

theorem startsWithL_take (l : List Char) : ∀ n : ℕ,
    startsWithL (l.take n) l = true := by
  induction l with
  | nil =>
    intro n
    simp [startsWithL]
  | cons c cs ih =>
    intro n
    cases n with
    | zero => simp [startsWithL]
    | succ n =>
      simp only [List.take_succ_cons, startsWithL]
      simp [ih n]

theorem jsIncludes_take_self (s : String) (n : ℕ) :
    jsIncludes s ⟨s.data.take n⟩ = true := by
  rw [jsIncludes]
  show containsAux s.data (s.data.take n) = true
  rw [containsAux.eq_def]
  simp [startsWithL_take]

/-- C9: comparing a snapshot against the state saved from the very same
data yields `hasChanges = false` and all three change lists empty. -/
theorem detect_self_no_changes (d : WeatherData) (ts : String) :
    detectChanges d (some (stateOf d ts)) =
      { hasChanges := false, alertChanges := [], conditionChanges := [],
        forecastChanges := [] } := by
  have habs : ∀ x : ℚ, ¬(|x - x| ≥ 5) := by
    intro x
    simp [sub_self]
  have hvis : ∀ v p : ℚ, v = p → ¬(v < 3 ∧ p ≥ 3) := by
    rintro v p rfl ⟨h1, h2⟩
    linarith
  have hvis2 : ∀ v p : ℚ, v = p → ¬(v ≥ 6 ∧ p < 3) := by
    rintro v p rfl ⟨h1, h2⟩
    linarith
  have hprec : ∀ p : ℚ, ¬(p - p ≥ 1 / 10) := by
    intro p
    simp [sub_self]
  have hw : ∀ w : String, ¬(w ≠ "" ∧ w ≠ w) := by
    rintro w ⟨_, h⟩
    exact h rfl
  have hsyn : ∀ s : String, jsIncludes s (take50 s) = true := by
    intro s
    rw [take50]
    exact jsIncludes_take_self s 50
  have hb : ∀ b : Bool, ¬(b = true ∧ ¬(b = true)) := by
    decide
  simp only [detectChanges, stateOf]
  simp [filter_not_contains_self, habs, hvis, hvis2, hprec, hw, hsyn, hb]
  norm_num

theorem precipRule_rank_le (p : ℚ) (fc : String)
    (x : DroneCondition × List String) :
    condRank (precipRule p fc x).1 ≤ condRank x.1 := by
  obtain ⟨c, issues⟩ := x
  cases c <;> simp only [precipRule] <;> split_ifs <;> simp_all [condRank]

theorem tempRule_rank_le (t : ℚ) (x : DroneCondition × List String) :
    condRank (tempRule t x).1 ≤ condRank x.1 := by
  obtain ⟨c, issues⟩ := x
  cases c <;> simp only [tempRule] <;> split_ifs <;> simp_all [condRank]

theorem fogRule_rank_le (fc : String) (x : DroneCondition × List String) :
    condRank (fogRule fc x).1 ≤ condRank x.1 := by
  obtain ⟨c, issues⟩ := x
  cases c <;> simp only [fogRule] <;> split_ifs <;> simp_all [condRank]

theorem precipRule_noFly (p : ℚ) (fc : String)
    (x : DroneCondition × List String) (h : x.1 = DroneCondition.noFly) :
    (precipRule p fc x).1 = DroneCondition.noFly := by
  obtain ⟨c, issues⟩ := x
  subst h
  simp only [precipRule] <;> split_ifs <;> simp_all

theorem tempRule_noFly (t : ℚ) (x : DroneCondition × List String)
    (h : x.1 = DroneCondition.noFly) :
    (tempRule t x).1 = DroneCondition.noFly := by
  obtain ⟨c, issues⟩ := x
  subst h
  simp only [tempRule] <;> split_ifs <;> simp_all

theorem fogRule_noFly (fc : String) (x : DroneCondition × List String)
    (h : x.1 = DroneCondition.noFly) :
    (fogRule fc x).1 = DroneCondition.noFly := by
  obtain ⟨c, issues⟩ := x
  subst h
  simp only [fogRule] <;> split_ifs <;> simp_all

theorem windowStep_not_flyable_clean (b : Option (ℕ × ℕ)) (fl : ℕ)
    (h : DroneHour) (hh : flyableCond h.condition = false) :
    windowStep (cleanState b fl) h = cleanState b fl := by
  simp [windowStep, cleanState, hh]

theorem windowStep_flyable_clean (b : Option (ℕ × ℕ)) (fl : ℕ)
    (h : DroneHour) (hh : flyableCond h.condition = true) :
    windowStep (cleanState b fl) h = openState b (fl + 1) h.hour 1 := by
  simp [windowStep, cleanState, openState, hh]

theorem windowStep_flyable_open (b : Option (ℕ × ℕ)) (fl st k : ℕ)
    (h : DroneHour) (hh : flyableCond h.condition = true) :
    windowStep (openState b fl st k) h = openState b (fl + 1) st (k + 1) := by
  simp [windowStep, openState, hh]

theorem lenOfRun_some (r : ℕ × ℕ) : lenOfRun (some r) = r.2 := rfl

theorem lenOfRun_none : lenOfRun none = 0 := rfl

theorem windowStep_not_flyable_open (b : Option (ℕ × ℕ)) (fl st k : ℕ)
    (h : DroneHour) (hh : flyableCond h.condition = false) :
    windowStep (openState b fl st k) h = cleanState (pickRun b (st, k)) fl := by
  by_cases hk : lenOfRun b < k
  · have hp : pickRun b (st, k) = some (st, k) := by
      simp [pickRun, hk]
    rw [hp]
    simp [windowStep, openState, cleanState, hh, hk, lenOfRun_some]
  · have hp : pickRun b (st, k) = b := by
      simp [pickRun, hk]
    rw [hp]
    simp [windowStep, openState, cleanState, hh, hk]

theorem finalizeWindow_clean (b : Option (ℕ × ℕ)) (fl : ℕ) :
    finalizeWindow (cleanState b fl) = runResult b fl := by
  simp [finalizeWindow, cleanState, runResult]

theorem finalizeWindow_open (b : Option (ℕ × ℕ)) (fl st k : ℕ) :
    finalizeWindow (openState b fl st k) = runResult (pickRun b (st, k)) fl := by
  by_cases hk : lenOfRun b < k
  · have hp : pickRun b (st, k) = some (st, k) := by
      simp [pickRun, hk]
    rw [hp]
    simp [finalizeWindow, openState, runResult, hk, lenOfRun_some]
  · have hp : pickRun b (st, k) = b := by
      simp [pickRun, hk]
    rw [hp]
    simp [finalizeWindow, openState, runResult, hk]

theorem windowScan_aux (n : ℕ) : ∀ (hours : List DroneHour),
    hours.length ≤ n →
    (∀ (b : Option (ℕ × ℕ)) (fl : ℕ),
      finalizeWindow (hours.foldl windowStep (cleanState b fl)) =
        runResult ((flyRuns hours).foldl pickRun b) (fl + countFly hours)) ∧
    (∀ (b : Option (ℕ × ℕ)) (fl st k : ℕ),
      finalizeWindow (hours.foldl windowStep (openState b fl st k)) =
        runResult
          (((st, k + (hours.takeWhile
                (fun x => flyableCond x.condition)).length) ::
              flyRuns (hours.dropWhile
                (fun x => flyableCond x.condition))).foldl pickRun b)
          (fl + countFly hours)) := by
  induction n with
  | zero =>
    intro hours hlen
    have hnil : hours = [] := List.length_eq_zero.mp (Nat.le_zero.mp hlen)
    subst hnil
    constructor
    · intro b fl
      simp [finalizeWindow_clean, flyRuns, countFly]
    · intro b fl st k
      simp [finalizeWindow_open, flyRuns, countFly]
  | succ n ih =>
    intro hours hlen
    match hours with
    | [] =>
      constructor
      · intro b fl
        simp [finalizeWindow_clean, flyRuns, countFly]
      · intro b fl st k
        simp [finalizeWindow_open, flyRuns, countFly]
    | h :: t =>
      have hlt : t.length ≤ n := by
        simpa [Nat.succ_le_succ_iff] using hlen
      constructor
      · intro b fl
        by_cases hh : flyableCond h.condition = true
        · rw [List.foldl_cons, windowStep_flyable_clean b fl h hh,
            (ih t hlt).2 b (fl + 1) h.hour 1]
          simp only [flyRuns, hh, if_true, countFly, List.filter_cons,
            List.length_cons]
          have h1 : 1 + (t.takeWhile (fun x => flyableCond x.condition)).length
              = (t.takeWhile (fun x => flyableCond x.condition)).length + 1 :=
            Nat.add_comm _ _
          have h2 : fl + 1 + (t.filter (fun x => flyableCond x.condition)).length
              = fl + ((t.filter (fun x => flyableCond x.condition)).length + 1) := by
            omega
          rw [h1, h2]
        · have hh' : flyableCond h.condition = false := by
            simpa using hh
          rw [List.foldl_cons, windowStep_not_flyable_clean b fl h hh',
            ((ih t hlt).1 b fl)]
          simp [flyRuns, hh', countFly, List.filter_cons]
      · intro b fl st k
        by_cases hh : flyableCond h.condition = true
        · rw [List.foldl_cons, windowStep_flyable_open b fl st k h hh,
            (ih t hlt).2 b (fl + 1) st (k + 1)]
          simp only [List.takeWhile_cons, List.dropWhile_cons, hh, if_true,
            List.length_cons, countFly, List.filter_cons]
          have h1 : k + ((t.takeWhile (fun x => flyableCond x.condition)).length + 1)
              = k + 1 + (t.takeWhile (fun x => flyableCond x.condition)).length := by
            omega
          have h2 : fl + ((t.filter (fun x => flyableCond x.condition)).length + 1)
              = fl + 1 + (t.filter (fun x => flyableCond x.condition)).length := by
            omega
          rw [h1, h2]
        · have hh' : flyableCond h.condition = false := by
            simpa using hh
          rw [List.foldl_cons, windowStep_not_flyable_open b fl st k h hh',
            ((ih t hlt).1 (pickRun b (st, k)) fl)]
          simp [List.takeWhile_cons, List.dropWhile_cons, hh', flyRuns,
            countFly, List.filter_cons]

theorem bestWindowOf_eq_pickRun (hours : List DroneHour) :
    bestWindowOf hours =
      runResult ((flyRuns hours).foldl pickRun none) (countFly hours) := by
  have hinit : initWindowState = cleanState none 0 := rfl
  have h := (windowScan_aux hours.length hours le_rfl).1 none 0
  simpa [bestWindowOf, windowScan, hinit] using h

theorem foldl_pickRun_char : ∀ (rs : List (ℕ × ℕ)) (acc : Option (ℕ × ℕ)),
    (rs.foldl pickRun acc = acc ∧ ∀ r ∈ rs, r.2 ≤ lenOfRun acc) ∨
    (∃ p r s, rs = p ++ r :: s ∧ rs.foldl pickRun acc = some r ∧
      lenOfRun acc < r.2 ∧ (∀ q ∈ p, q.2 < r.2) ∧ (∀ q ∈ s, q.2 ≤ r.2)) := by
  intro rs
  induction rs with
  | nil =>
    intro acc
    left
    simp
  | cons x rs ih =>
    intro acc
    by_cases hx : lenOfRun acc < x.2
    · have hstep : pickRun acc x = some x := by
        simp [pickRun, hx]
      rcases ih (some x) with ⟨heq, hall⟩ | ⟨p, r, s, hsplit, heq, hlt, hp, hs⟩
      · right
        refine ⟨[], x, rs, by simp, by simp [hstep, heq], hx, by simp, ?_⟩
        intro q hq
        simpa [lenOfRun_some] using hall q hq
      · right
        refine ⟨x :: p, r, s, by simp [hsplit], by simp [hstep, heq], ?_, ?_, hs⟩
        · exact lt_trans hx (by simpa [lenOfRun_some] using hlt)
        · intro q hq
          rcases List.mem_cons.mp hq with hq | hq
          · subst hq
            simpa [lenOfRun_some] using hlt
          · exact hp q hq
    · have hstep : pickRun acc x = acc := by
        simp [pickRun, hx]
      rcases ih acc with ⟨heq, hall⟩ | ⟨p, r, s, hsplit, heq, hlt, hp, hs⟩
      · left
        constructor
        · simp [hstep, heq]
        · intro q hq
          rcases List.mem_cons.mp hq with hq | hq
          · subst hq
            exact Nat.le_of_not_lt hx
          · exact hall q hq
      · right
        refine ⟨x :: p, r, s, by simp [hsplit], by simp [hstep, heq], hlt, ?_, hs⟩
        intro q hq
        rcases List.mem_cons.mp hq with hq | hq
        · subst hq
          exact lt_of_le_of_lt (Nat.le_of_not_lt hx) hlt
        · exact hp q hq

theorem find?_first_of_split {α : Type} (p : α → Bool) (pre : List α) (r : α)
    (post : List α) (hpre : ∀ q ∈ pre, p q = false) (hr : p r = true) :
    (pre ++ r :: post).find? p = some r := by
  induction pre with
  | nil =>
    simp [List.find?_cons_of_pos, hr]
  | cons a pre ih =>
    have ha : p a = false := hpre a (by simp)
    rw [List.cons_append, List.find?_cons_of_neg _ (by simp [ha])]
    exact ih (fun q hq => hpre q (by simp [hq]))

theorem length_dropWhile_le_self {α : Type} (p : α → Bool) (l : List α) :
    (l.dropWhile p).length ≤ l.length :=
  (List.IsSuffix.sublist (List.dropWhile_suffix p)).length_le

theorem flyRuns_len_pos (n : ℕ) : ∀ (hours : List DroneHour),
    hours.length ≤ n → ∀ r ∈ flyRuns hours, 1 ≤ r.2 := by
  induction n with
  | zero =>
    intro hours hlen r hr
    have hnil : hours = [] := List.length_eq_zero.mp (Nat.le_zero.mp hlen)
    subst hnil
    simp [flyRuns] at hr
  | succ n ih =>
    intro hours hlen r hr
    match hours with
    | [] => simp [flyRuns] at hr
    | h :: t =>
      have hlt : t.length ≤ n := by
        simpa [Nat.succ_le_succ_iff] using hlen
      by_cases hh : flyableCond h.condition = true
      · rw [flyRuns] at hr
        simp only [hh, if_true, List.mem_cons] at hr
        rcases hr with hr | hr
        · subst hr
          simp
        · exact ih _ (le_trans (length_dropWhile_le_self _ t) hlt) r hr
      · rw [flyRuns] at hr
        simp only [hh] at hr
        simp only [if_false, Bool.false_eq_true] at hr
        exact ih t hlt r hr

theorem foldl_pickRun_eq_firstLongest (rs : List (ℕ × ℕ))
    (hpos : ∀ r ∈ rs, 1 ≤ r.2) :
    rs.foldl pickRun none = firstLongestRun rs := by
  rcases foldl_pickRun_char rs none with ⟨heq, hall⟩ |
    ⟨p, r, s, hsplit, heq, hlt, hp, hs⟩
  · match rs, hpos, hall with
    | [], _, _ => simp [firstLongestRun]
    | x :: rs', hpos, hall =>
      have h1 := hpos x (by simp)
      have h2 := hall x (by simp)
      simp [lenOfRun_none] at h2
      omega
  · have hmemr : ∀ q ∈ rs, q.2 ≤ r.2 := by
      intro q hq
      rw [hsplit] at hq
      rcases List.mem_append.mp hq with hq | hq
      · exact le_of_lt (hp q hq)
      · rcases List.mem_cons.mp hq with hq | hq
        · subst hq
          exact le_refl _
        · exact hs q hq
    rw [heq, firstLongestRun, hsplit]
    symm
    apply find?_first_of_split
    · intro q hq
      have hqr : q.2 < r.2 := hp q hq
      rw [List.all_eq_false]
      exact ⟨r, by simp, by simp [Nat.not_le.mpr hqr]⟩
    · rw [List.all_eq_true]
      intro q hq
      rw [← hsplit] at hq
      simpa using hmemr q hq

/-- C2: the best window computed by `fetchDroneForecast` is the longest
contiguous run of hours rated excellent or good — `firstLongestRun`
returns the first run whose length no other run exceeds, so ties for
longest resolve to the run with the earlier start hour — with
`bestWindowEnd = start + length - 1`; the printed label shows the end
hour exclusively (`formatHour start - formatHour (start + length)`), so
a run covering hours 6 through 9 prints as `"6 AM - 10 AM"`; ties are
illustrated by two length-1 runs at hours 6 and 8 yielding the run at
hour 6. -/
theorem bestWindow_spec (hours : List DroneHour) :
    bestWindowOf hours =
      runResult (firstLongestRun (flyRuns hours)) (countFly hours) ∧
    bestWindowLabel hours =
      (firstLongestRun (flyRuns hours)).map
        (fun r => formatHour r.1 ++ " - " ++ formatHour (r.1 + r.2)) ∧
    bestWindowLabel
        [⟨6, DroneCondition.excellent⟩, ⟨7, DroneCondition.good⟩,
         ⟨8, DroneCondition.good⟩, ⟨9, DroneCondition.excellent⟩,
         ⟨10, DroneCondition.noFly⟩] = some "6 AM - 10 AM" ∧
    bestWindowOf
        [⟨6, DroneCondition.good⟩, ⟨7, DroneCondition.noFly⟩,
         ⟨8, DroneCondition.good⟩, ⟨9, DroneCondition.noFly⟩] =
      (some 6, some 6, 2) := by
  have hpos := flyRuns_len_pos hours.length hours le_rfl
  have h1 : bestWindowOf hours =
      runResult (firstLongestRun (flyRuns hours)) (countFly hours) := by
    rw [bestWindowOf_eq_pickRun, foldl_pickRun_eq_firstLongest _ hpos]
  refine ⟨h1, ?_, by decide, by decide⟩
  match hflr : firstLongestRun (flyRuns hours) with
  | none =>
    rw [bestWindowLabel, h1, hflr]
    simp [runResult]
  | some r =>
    have hrmem : r ∈ flyRuns hours := by
      apply List.mem_of_find?_eq_some
      rw [firstLongestRun] at hflr
      exact hflr
    have hrpos : 1 ≤ r.2 := hpos r hrmem
    have hend : r.1 + r.2 - 1 + 1 = r.1 + r.2 := by omega
    rw [bestWindowLabel, h1, hflr]
    simp [runResult, hend]

theorem obsRowStep_fst (td yd : ℤ) (acc : ℚ × ℚ) (cells : List String) :
    (obsRowStep td yd acc cells).1 = acc.1 + rowContrib td cells := by
  unfold obsRowStep rowContrib
  by_cases h16 : cells.length < 16
  · simp only [if_pos h16]
    simp
  · simp only [if_neg h16]
    generalize jsParseInt (cells.getD 0 "") = pi
    cases pi with
    | none => simp
    | some dayNum =>
      unfold precipCellValue
      generalize jsParseFloat (cells.getD 15 "") = pv
      cases pv with
      | none => simp
      | some v =>
        by_cases hr : 0 < v ∧ v < 10
        · by_cases hd : dayNum = td
          · simp [hr, hd]
          · by_cases hyd : dayNum = yd
            · subst hyd
              simp [hr, hd]
            · simp [hr, hd, hyd]
        · simp [hr]

theorem foldl_obsRowStep_fst (td yd : ℤ) : ∀ (rows : List (List String))
    (acc : ℚ × ℚ),
    (rows.foldl (obsRowStep td yd) acc).1 =
      acc.1 + (rows.map (rowContrib td)).sum := by
  intro rows
  induction rows with
  | nil =>
    intro acc
    simp
  | cons cells rest ih =>
    intro acc
    rw [List.foldl_cons, ih, obsRowStep_fst]
    simp [add_assoc]

/-- C6: a 1-hour precipitation cell contributes to the daily accumulation
iff it parses to a number strictly greater than 0 and strictly less than
10 — in which case it contributes exactly the parsed value; a non-numeric
cell such as `"T"` and an out-of-range value such as `"15.0"` contribute
0; and today's accumulated total is the sum of the per-row
contributions. -/
theorem precip_cell_inclusion :
    (∀ cell, precipCellValue cell ≠ 0 ↔
      ∃ v, jsParseFloat cell = some v ∧ 0 < v ∧ v < 10) ∧
    (∀ cell v, jsParseFloat cell = some v → 0 < v → v < 10 →
      precipCellValue cell = v) ∧
    precipCellValue "T" = 0 ∧
    precipCellValue "15.0" = 0 ∧
    (∀ (td yd : ℤ) (rows : List (List String)),
      (rows.foldl (obsRowStep td yd) (0, 0)).1 =
        (rows.map (rowContrib td)).sum) := by
  refine ⟨?_, ?_, by with_unfolding_all decide, by with_unfolding_all decide,
    ?_⟩
  · intro cell
    cases hv : jsParseFloat cell with
    | none => simp [precipCellValue, hv]
    | some v =>
      by_cases hr : 0 < v ∧ v < 10
      · simp only [precipCellValue, hv, hr, if_true]
        constructor
        · intro _
          exact ⟨v, rfl, hr⟩
        · intro _
          exact ne_of_gt hr.1
      · simp only [precipCellValue, hv, hr, if_false]
        constructor
        · intro h
          exact absurd rfl h
        · rintro ⟨v', hv', h0, h10⟩
          rw [Option.some_inj] at hv'
          subst hv'
          exact absurd ⟨h0, h10⟩ hr
  · intro cell v hv h0 h10
    simp [precipCellValue, hv, h0, h10]
  · intro td yd rows
    rw [foldl_obsRowStep_fst]
    norm_num

/-- Witness for `precip_cell_inclusion`: the cell `"0.25"` parses to 1/4
and contributes exactly 1/4. -/
theorem precip_cell_inclusion_witness :
    jsParseFloat "0.25" = some (1 / 4) ∧ precipCellValue "0.25" = 1 / 4 :=
  ⟨by with_unfolding_all decide,
    precip_cell_inclusion.2.1 "0.25" (1 / 4) (by with_unfolding_all decide)
      (by norm_num) (by norm_num)⟩

/-- C10: `fetchAirportObservation` assigns
`visibility: parseFloat(visCell) || 10`, so a visibility cell parsing to
the number 0 yields visibility 10 — the same value as a missing or
unparseable cell — and the parsed value is kept in the observation only
when it is non-zero. -/
theorem visibility_zero_defaults :
    (∀ stationId cells, (mkCurrentObs stationId cells).visibility =
      parseFloatOr (cells.getD 3 "") 10) ∧
    (∀ cell, jsParseFloat cell = some 0 → parseFloatOr cell 10 = 10) ∧
    (∀ cell, jsParseFloat cell = none → parseFloatOr cell 10 = 10) ∧
    (∀ cell v, jsParseFloat cell = some v → v ≠ 0 →
      parseFloatOr cell 10 = v) ∧
    jsParseFloat "0" = some 0 := by
  refine ⟨fun stationId cells => rfl, ?_, ?_, ?_,
    by with_unfolding_all decide⟩
  · intro cell h
    simp [parseFloatOr, numOr, h]
  · intro cell h
    simp [parseFloatOr, numOr, h]
  · intro cell v h hv
    simp [parseFloatOr, numOr, h, hv]

/-- Witness for `visibility_zero_defaults`: the cell `"0"` parses to 0
yet yields visibility 10, while `"2.5"` yields 5/2. -/
theorem visibility_zero_defaults_witness :
    parseFloatOr "0" 10 = 10 ∧ parseFloatOr "2.5" 10 = 5 / 2 :=
  ⟨visibility_zero_defaults.2.1 "0" (by with_unfolding_all decide),
    visibility_zero_defaults.2.2.2.1 "2.5" (5 / 2)
      (by with_unfolding_all decide) (by norm_num)⟩

theorem iconCascade_eq_lastMatch (bFlood bWind bSnow bIce bThunder
    bTornado : Bool) (base : AlertIcon) :
    iconCascade bFlood bWind bSnow bIce bThunder bTornado base =
      iconLastMatch bFlood bWind bSnow bIce bThunder bTornado base := by
  cases bFlood <;> cases bWind <;> cases bSnow <;> cases bIce <;>
    cases bThunder <;> cases bTornado <;> rfl

/-- C7: severity `"Extreme"`/`"Severe"` map to tier high, `"Moderate"` to
moderate, anything else to low; the icon is first set from the severity
tier and then overridden by the keyword checks in order flood, wind, snow,
ice/freeze, thunder, tornado, the last matching keyword rule winning. -/
theorem classifyAlert_spec (severityStr event : String) :
    classifyAlert severityStr event =
      (specAlertTier severityStr, specAlertIcon severityStr event) := by
  simp only [classifyAlert, specAlertTier, specAlertIcon,
    iconCascade_eq_lastMatch]
  split_ifs <;> simp_all

/-- C3: the rating chain is monotonically downgrading: each rule in the
order wind, precipitation, temperature, fog either leaves the rating
unchanged or makes it stricter, and once any rule yields `noFly` the
final rating is `noFly`. -/
theorem analyzeDroneCondition_monotone (w p t : ℚ) (fc : String) :
    condRank (windRule w (DroneCondition.excellent, [])).1
        ≤ condRank DroneCondition.excellent ∧
    condRank (precipRule p fc (windRule w (DroneCondition.excellent, []))).1
        ≤ condRank (windRule w (DroneCondition.excellent, [])).1 ∧
    condRank (tempRule t (precipRule p fc
          (windRule w (DroneCondition.excellent, [])))).1
        ≤ condRank (precipRule p fc
            (windRule w (DroneCondition.excellent, []))).1 ∧
    condRank (analyzeDroneCondition w p t fc).1
        ≤ condRank (tempRule t (precipRule p fc
            (windRule w (DroneCondition.excellent, [])))).1 ∧
    ((windRule w (DroneCondition.excellent, [])).1 = DroneCondition.noFly →
      (analyzeDroneCondition w p t fc).1 = DroneCondition.noFly) ∧
    ((precipRule p fc (windRule w (DroneCondition.excellent, []))).1
        = DroneCondition.noFly →
      (analyzeDroneCondition w p t fc).1 = DroneCondition.noFly) ∧
    ((tempRule t (precipRule p fc
          (windRule w (DroneCondition.excellent, [])))).1
        = DroneCondition.noFly →
      (analyzeDroneCondition w p t fc).1 = DroneCondition.noFly) := by
  refine ⟨condRank_le_three _, precipRule_rank_le _ _ _, tempRule_rank_le _ _,
    fogRule_rank_le _ _, ?_, ?_, ?_⟩
  · intro h
    exact fogRule_noFly _ _ (tempRule_noFly _ _ (precipRule_noFly _ _ _ h))
  · intro h
    exact fogRule_noFly _ _ (tempRule_noFly _ _ h)
  · intro h
    exact fogRule_noFly _ _ h

/-- Witness for `analyzeDroneCondition_monotone`: at wind 30 mph the wind
rule yields `noFly` and the final rating is `noFly`. -/
theorem analyzeDroneCondition_monotone_witness :
    (windRule 30 (DroneCondition.excellent, [])).1 = DroneCondition.noFly ∧
    (analyzeDroneCondition 30 0 50 "Sunny").1 = DroneCondition.noFly :=
  ⟨by decide, (analyzeDroneCondition_monotone 30 0 50 "Sunny").2.2.2.2.1
    (by decide)⟩

end Mesoscale
